import Mathlib

/-!
Verification of `scripts/generate_ai_wireframes.py`: a shallow embedding of
the PRD-markdown wireframe generator, together with proofs about its
block parser, image-reference resolution, template builders and dispatcher.

Conventions of the embedding:
* Python `Dict[str, str]` is an insertion-ordered association list
  (`Block`); `dinsert` overwrites in place like dict assignment and
  `dget` is `dict.get`.
* Python string functions (`strip`, `splitlines`, `split(":", 1)`,
  `startswith`, `lower`) are re-implemented on `List Char`; the ASCII
  whitespace set of Python is used, which is exact for every ASCII input.
* The filesystem is an oracle `fs : String → Bool` (`Path.exists`), the
  `Path.as_uri` conversion is an oracle `uri : String → String`, and the
  network (`urlopen`) is an oracle `net : String → Option Nat`, where
  `some s` models a response object whose `status` attribute reads `s`
  (the `getattr` default 200 is absorbed into the oracle) and `none`
  models any exception escaping `urlopen`.
* Writing a file is modelled by the `GenResult.wrote` outcome; printing a
  skip notice by `GenResult.skipped` carrying the printed message.
-/

set_option maxRecDepth 40000

/-- The ASCII whitespace characters recognised by Python `str.strip()` /
`\s` (the input documents relevant here are ASCII-plus-CJK; no CJK
character is whitespace). -/
def pyIsSpace (c : Char) : Bool :=
  c = ' ' || c = '\t' || c = '\n' || c = '\r' || c = '\x0b' || c = '\x0c'

/-- Strip characters satisfying `p` from both ends of a char list
(Python `str.strip(chars)` removes *all* leading and trailing members of
the set, each end independently). -/
def pyStripList (p : Char → Bool) (l : List Char) : List Char :=
  ((l.dropWhile p).reverse.dropWhile p).reverse

/-- Python `str.strip()` (whitespace). -/
def pyStrip (s : String) : String :=
  String.mk (pyStripList pyIsSpace s.toList)

/-- Python `str.strip(c)` for a single-character set `c`. -/
def pyStripChar (c : Char) (s : String) : String :=
  String.mk (pyStripList (fun x => x = c) s.toList)

/-- The straight double quote character. -/
def doubleQuoteChar : Char := Char.ofNat 34

/-- The straight single quote character. -/
def singleQuoteChar : Char := Char.ofNat 39

/-- Python `str.splitlines` worker; recognises the ASCII line terminators
`\r\n`, `\r`, `\n` (the only ones occurring in the inputs modelled).
`acc` holds the current line, reversed. -/
def pySplitlinesGo : List Char → List Char → List String
  | acc, [] => if acc.isEmpty then [] else [String.mk acc.reverse]
  | acc, '\r' :: '\n' :: t => String.mk acc.reverse :: pySplitlinesGo [] t
  | acc, '\r' :: t => String.mk acc.reverse :: pySplitlinesGo [] t
  | acc, '\n' :: t => String.mk acc.reverse :: pySplitlinesGo [] t
  | acc, c :: t => pySplitlinesGo (c :: acc) t

/-- Python `str.splitlines` (no trailing empty line). -/
def pySplitlines (s : String) : List String :=
  pySplitlinesGo [] s.toList

/-- Python `str.startswith(p)`. -/
def pyStartsWith (s p : String) : Bool :=
  p.toList.isPrefixOf s.toList

/-- Python `str.lower()` (ASCII case mapping, exact on ASCII input). -/
def pyToLower (s : String) : String :=
  String.mk (s.toList.map Char.toLower)

/-- Python `repr` of a string without quotes or escapes inside: wraps it
in straight single quotes (models the `!r` conversion in the skip
message, whose argument here is an already-lowercased type name). -/
def pyRepr (s : String) : String :=
  String.singleton singleQuoteChar ++ s ++ String.singleton singleQuoteChar

/-- A parsed wireframe block: a Python `Dict[str, str]` as an
insertion-ordered association list. -/
def Block : Type := List (String × String)

instance : DecidableEq Block := inferInstanceAs (DecidableEq (List (String × String)))

instance : Membership (String × String) Block := inferInstanceAs (Membership (String × String) (List (String × String)))

/-- Python `dict.get k`: value at the first (hence, by the `dinsert` invariant,
only) entry for `k`. -/
def dget : Block → String → Option String
  | [], _ => none
  | (k', v) :: t, k => if k' = k then some v else dget t k

/-- Python `dict[k] = v`: overwrite the entry for `k` in place if present, else
append a new entry (Python dicts keep insertion order and keep the
original position on overwrite). -/
def dinsert : Block → String → String → Block
  | [], k, v => [(k, v)]
  | (k', v') :: t, k, v => if k' = k then (k', v) :: t else (k', v') :: dinsert t k v

/-- Removing a key from a mapping (used to state claims that compare a
mapping with a field against the same mapping with the field removed). -/
def derase (b : Block) (k : String) : Block :=
  b.filter (fun p => p.1 ≠ k)

/-- Python `block.get(k) or d`: the `or` falls through to the default
both when the key is absent and when its value is the empty string
(empty strings are falsy). -/
def getOrTruthy (b : Block) (k d : String) : String :=
  match dget b k with
  | none => d
  | some s => if s = "" then d else s

/-- Python `line.split(":", 1)`: `some (before, after)` at the first
colon, `none` when the line has no colon (in which case the source
`continue`s). -/
def splitFirstColon : List Char → Option (List Char × List Char)
  | [] => none
  | c :: t =>
    if c = ':' then some ([], t)
    else
      match splitFirstColon t with
      | some (a, b) => some (c :: a, b)
      | none => none

/-- One iteration of the line loop of `_parse_key_values`
(source lines 76–86). -/
def processLine (result : Block) (rawLine : String) : Block :=
  let line := pyStrip rawLine
  if line = "" || pyStartsWith line "#" then result
  else
    match splitFirstColon line.toList with
    | none => result
    | some (k, v) =>
      let key := pyStrip (String.mk k)
      let val := pyStripChar singleQuoteChar (pyStripChar doubleQuoteChar (pyStrip (String.mk v)))
      if key ≠ "" then dinsert result key val else result

/-- Source `_parse_key_values` (lines 73–90): fold the line parser over
the block body, then require `output_path`, returning the empty mapping
otherwise. -/
def parseKeyValues (content : String) : Block :=
  let result := (pySplitlines content).foldl processLine []
  if (dget result "output_path").isSome then result else []

/-- Drop an exact literal prefix, returning the rest. -/
def dropLit : List Char → List Char → Option (List Char)
  | [], l => some l
  | _ :: _, [] => none
  | p :: ps, c :: cs => if c = p then dropLit ps cs else none

/-- Drop a case-insensitive literal prefix (the pattern is given in
lowercase; models `re.IGNORECASE` on an ASCII tag). -/
def dropLitCI : List Char → List Char → Option (List Char)
  | [], l => some l
  | _ :: _, [] => none
  | p :: ps, c :: cs => if c.toLower = p then dropLitCI ps cs else none

/-- Split at the first occurrence of a literal: `some (before, after)`
where `before` is the (lazy, i.e. shortest) text preceding the first
occurrence of `needle` and `after` the text following it. -/
def splitFirstLit (needle : List Char) : List Char → Option (List Char × List Char)
  | [] => none
  | c :: t =>
    if needle.isPrefixOf (c :: t) then some ([], (c :: t).drop needle.length)
    else
      match splitFirstLit needle t with
      | some (a, b) => some (c :: a, b)
      | none => none

/-- Try to match `<!--\s*AI-WIREFRAME(.*?)-->` (DOTALL, IGNORECASE) at
the head of the text; on success return the lazily captured group and
the remaining text after the match. -/
def matchCommentAt (l : List Char) : Option (List Char × List Char) :=
  match dropLit "<!--".toList l with
  | none => none
  | some r1 =>
    match dropLitCI "ai-wireframe".toList (r1.dropWhile pyIsSpace) with
    | none => none
    | some r2 => splitFirstLit "-->".toList r2

/-- Try to match ```` ```ai-wireframe(.*?)``` ```` (DOTALL, IGNORECASE)
at the head of the text; on success return the captured group and the
remaining text after the match. -/
def matchCodeAt (l : List Char) : Option (List Char × List Char) :=
  match dropLit "```".toList l with
  | none => none
  | some r1 =>
    match dropLitCI "ai-wireframe".toList r1 with
    | none => none
    | some r2 => splitFirstLit "```".toList r2

/-- Python `re.finditer` for one of the block patterns: scan left to right,
emitting each (non-overlapping) match's captured group and resuming
after the match. Fuel is the remaining text length; every match consumes
at least one character, so `l.length` fuel is exact. -/
def reFindAll (matchAt : List Char → Option (List Char × List Char)) :
    Nat → List Char → List String
  | 0, _ => []
  | _ + 1, [] => []
  | n + 1, c :: t =>
    match matchAt (c :: t) with
    | some (content, rest) => String.mk content :: reFindAll matchAt n rest
    | none => reFindAll matchAt n t

/-- Source `parse_blocks` (lines 30–70): all comment-style matches in
document order, then all code-fence matches in document order, each
parsed by `_parse_key_values`, keeping only truthy (non-empty)
mappings. -/
def parse_blocks (text : String) : List Block :=
  let l := text.toList
  let comments := reFindAll matchCommentAt l.length l
  let codes := reFindAll matchCodeAt l.length l
  ((comments ++ codes).map parseKeyValues).filter (fun b => !b.isEmpty)
/-- Literal template text transcribed from the source builder. -/
def listCss : String :=
  "\n    body \x7b\n      margin: 0;\n      padding: 24px;\n      font-family: -apple-system, BlinkMacSystemFont, \"Segoe UI\", Roboto, sans-serif;\n      background: #f5f5f5;\n    \x7d\n    .wf-page \x7b\n      margin: 0 auto;\n      background: #ffffff;\n      border-radius: 16px;\n      box-shadow: 0 2px 8px rgba(0,0,0,0.08);\n      border: 1px solid #e0e0e0;\n      overflow: hidden;\n    \x7d\n    .wf-page--mobile \x7b\n      max-width: 414px;\n    \x7d\n    .wf-page--web \x7b\n      max-width: 960px;\n    \x7d\n    .wf-header \x7b\n      background: #f0f0f0;\n      border-bottom: 1px solid #e0e0e0;\n    \x7d\n    .wf-status-bar \x7b\n      height: 12px;\n      background: linear-gradient(90deg, #d0d0d0 20%, #e0e0e0 40%, #d0d0d0 60%);\n    \x7d\n    .wf-nav-bar \x7b\n      display: flex;\n      align-items: center;\n      padding: 8px 12px;\n    \x7d\n    .wf-nav-back,\n    .wf-nav-action \x7b\n      width: 24px;\n      height: 24px;\n      border-radius: 6px;\n      border: 1px solid #cccccc;\n      background: #f5f5f5;\n    \x7d\n    .wf-nav-title \x7b\n      flex: 1;\n      text-align: center;\n      font-size: 14px;\n      color: #666666;\n    \x7d\n    .wf-content \x7b\n      padding: 12px;\n      background: #f8f8f8;\n    \x7d\n    .wf-list-item \x7b\n      border-radius: 8px;\n      border: 1px solid #d0d0d0;\n      padding: 8px 10px;\n      margin-bottom: 8px;\n      display: flex;\n      align-items: flex-start;\n      gap: 8px;\n    \x7d\n    .wf-list-item--unread \x7b\n      background: #ffffff;\n    \x7d\n    .wf-list-item--read \x7b\n      background: #e4e4e4;\n      border-color: #c8c8c8;\n    \x7d\n    .wf-list-thumb \x7b\n      width: 64px;\n      height: 64px;\n      border-radius: 8px;\n      background: #d0d0d0;\n      flex-shrink: 0;\n      overflow: hidden;\n    \x7d\n    .wf-list-thumb img \x7b\n      width: 100%;\n      height: 100%;\n      object-fit: cover;\n      display: block;\n    \x7d\n    .wf-list-item--read .wf-list-thumb \x7b\n      background: #c4c4c4;\n    \x7d\n    .wf-list-body \x7b\n      flex: 1;\n      min-width: 0;\n    \x7d\n    .wf-list-title \x7b\n      font-size: 13px;\n      color: #555555;\n      margin-bottom: 4px;\n      white-space: nowrap;\n      overflow: hidden;\n      text-overflow: ellipsis;\n    \x7d\n    .wf-list-item--read .wf-list-title \x7b\n      color: #777777;\n    \x7d\n    .wf-list-meta \x7b\n      font-size: 11px;\n      color: #999999;\n    \x7d\n    .wf-list-item--read .wf-list-meta \x7b\n      color: #aaaaaa;\n    \x7d\n    .wf-notes \x7b\n      padding: 8px 12px 12px;\n      font-size: 12px;\n      color: #999999;\n      border-top: 1px dashed #e0e0e0;\n      background: #fafafa;\n    \x7d\n    h1 \x7b\n      font-size: 16px;\n      margin: 0 0 12px;\n      text-align: center;\n      color: #555555;\n    \x7d\n    "

/-- Literal template text transcribed from the source builder. -/
def detailCss : String :=
  "\n    body \x7b\n      margin: 0;\n      padding: 24px;\n      font-family: -apple-system, BlinkMacSystemFont, \"Segoe UI\", Roboto, sans-serif;\n      background: #f5f5f5;\n    \x7d\n    .wf-page \x7b\n      margin: 0 auto;\n      background: #ffffff;\n      border-radius: 16px;\n      box-shadow: 0 2px 8px rgba(0,0,0,0.08);\n      border: 1px solid #e0e0e0;\n      overflow: hidden;\n    \x7d\n    .wf-page--mobile \x7b\n      max-width: 414px;\n    \x7d\n    .wf-page--web \x7b\n      max-width: 960px;\n    \x7d\n    .wf-header \x7b\n      background: #f0f0f0;\n      border-bottom: 1px solid #e0e0e0;\n    \x7d\n    .wf-status-bar \x7b\n      height: 12px;\n      background: linear-gradient(90deg, #d0d0d0 20%, #e0e0e0 40%, #d0d0d0 60%);\n    \x7d\n    .wf-nav-bar \x7b\n      display: flex;\n      align-items: center;\n      padding: 8px 12px;\n    \x7d\n    .wf-nav-back,\n    .wf-nav-action \x7b\n      width: 24px;\n      height: 24px;\n      border-radius: 6px;\n      border: 1px solid #cccccc;\n      background: #f5f5f5;\n    \x7d\n    .wf-nav-title \x7b\n      flex: 1;\n      text-align: center;\n      font-size: 14px;\n      color: #666666;\n    \x7d\n    .wf-hero \x7b\n      width: 100%;\n      background: #e8e8e8;\n      border-bottom: 1px solid #e0e0e0;\n    \x7d\n    .wf-hero img \x7b\n      display: block;\n      width: 100%;\n      height: auto;\n      object-fit: cover;\n    \x7d\n    .wf-content \x7b\n      padding: 16px 16px 12px;\n      background: #ffffff;\n    \x7d\n    .wf-detail-title \x7b\n      font-size: 15px;\n      color: #444444;\n      margin: 4px 0 6px;\n      line-height: 1.4;\n    \x7d\n    .wf-detail-meta \x7b\n      font-size: 11px;\n      color: #999999;\n      margin-bottom: 12px;\n    \x7d\n    .wf-detail-paragraph \x7b\n      font-size: 13px;\n      color: #666666;\n      line-height: 1.6;\n      margin-bottom: 6px;\n    \x7d\n    .wf-notes \x7b\n      padding: 8px 16px 12px;\n      font-size: 12px;\n      color: #999999;\n      border-top: 1px dashed #e0e0e0;\n      background: #fafafa;\n    \x7d\n    h1 \x7b\n      font-size: 16px;\n      margin: 0 0 12px;\n      text-align: center;\n      color: #555555;\n    \x7d\n    "

/-- Literal template text transcribed from the source builder. -/
def wfFooterOpen : String :=
  "<footer class=\"wf-notes\">\n      "

/-- Literal template text transcribed from the source builder. -/
def wfFooterClose : String :=
  "\n    </footer>"

/-- Literal template text transcribed from the source builder. -/
def listSeg0 : String :=
  "<!DOCTYPE html>\n<html lang=\"zh-CN\">\n<head>\n  <meta charset=\"utf-8\" />\n  <title>"

/-- Literal template text transcribed from the source builder. -/
def listSeg1 : String :=
  "</title>\n  <style>\n  "

/-- Literal template text transcribed from the source builder. -/
def listSeg2 : String :=
  "\n  </style>\n</head>\n<body>\n  <div class=\"wf-page "

/-- Literal template text transcribed from the source builder. -/
def listSeg3 : String :=
  "\" data-wireframe-type=\"list_page\" data-wireframe-name=\""

/-- Literal template text transcribed from the source builder. -/
def listSeg4 : String :=
  "\">\n    <h1>"

/-- Literal template text transcribed from the source builder. -/
def listSeg5 : String :=
  "</h1>\n    <header class=\"wf-header\">\n      <div class=\"wf-status-bar\"></div>\n      <div class=\"wf-nav-bar\">\n        <div class=\"wf-nav-back\"></div>\n        <div class=\"wf-nav-title\">列表</div>\n        <div class=\"wf-nav-action\"></div>\n      </div>\n    </header>\n    <main class=\"wf-content\">\n      <div class=\"wf-list-item wf-list-item--unread\">\n        <div class=\"wf-list-thumb\"><img src=\""

/-- Literal template text transcribed from the source builder. -/
def listSeg6 : String :=
  "\" alt=\"缩略图\" /></div>\n        <div class=\"wf-list-body\">\n          <div class=\"wf-list-title\">示例未读标题一，文案略长截断展示</div>\n          <div class=\"wf-list-meta\">今天 · 10:24</div>\n        </div>\n      </div>\n      <div class=\"wf-list-item wf-list-item--unread\">\n        <div class=\"wf-list-thumb\"><img src=\""

/-- Literal template text transcribed from the source builder. -/
def listSeg7 : String :=
  "\" alt=\"缩略图\" /></div>\n        <div class=\"wf-list-body\">\n          <div class=\"wf-list-title\">示例未读标题二</div>\n          <div class=\"wf-list-meta\">今天 · 09:05</div>\n        </div>\n      </div>\n      <div class=\"wf-list-item wf-list-item--unread\">\n        <div class=\"wf-list-thumb\"><img src=\""

/-- Literal template text transcribed from the source builder. -/
def listSeg8 : String :=
  "\" alt=\"缩略图\" /></div>\n        <div class=\"wf-list-body\">\n          <div class=\"wf-list-title\">示例未读标题三</div>\n          <div class=\"wf-list-meta\">昨天 · 18:32</div>\n        </div>\n      </div>\n      <div class=\"wf-list-item wf-list-item--read\">\n        <div class=\"wf-list-thumb\"><img src=\""

/-- Literal template text transcribed from the source builder. -/
def listSeg9 : String :=
  "\" alt=\"缩略图\" /></div>\n        <div class=\"wf-list-body\">\n          <div class=\"wf-list-title\">示例已读标题一 · 已读内容</div>\n          <div class=\"wf-list-meta\">昨天 · 15:10</div>\n        </div>\n      </div>\n      <div class=\"wf-list-item wf-list-item--read\">\n        <div class=\"wf-list-thumb\"><img src=\""

/-- Literal template text transcribed from the source builder. -/
def listSeg10 : String :=
  "\" alt=\"缩略图\" /></div>\n        <div class=\"wf-list-body\">\n          <div class=\"wf-list-title\">示例已读标题二 · 已读内容</div>\n          <div class=\"wf-list-meta\">前天 · 20:48</div>\n        </div>\n      </div>\n      <div class=\"wf-list-item wf-list-item--read\">\n        <div class=\"wf-list-thumb\"><img src=\""

/-- Literal template text transcribed from the source builder. -/
def listSeg11 : String :=
  "\" alt=\"缩略图\" /></div>\n        <div class=\"wf-list-body\">\n          <div class=\"wf-list-title\">示例已读标题三 · 已读内容</div>\n          <div class=\"wf-list-meta\">本周内 · 08:15</div>\n        </div>\n      </div>\n    </main>\n    "

/-- Literal template text transcribed from the source builder. -/
def listSeg12 : String :=
  "\n  </div>\n</body>\n</html>\n"

/-- Literal template text transcribed from the source builder. -/
def detailSeg0 : String :=
  "<!DOCTYPE html>\n<html lang=\"zh-CN\">\n<head>\n  <meta charset=\"utf-8\" />\n  <title>"

/-- Literal template text transcribed from the source builder. -/
def detailSeg1 : String :=
  "</title>\n  <style>\n  "

/-- Literal template text transcribed from the source builder. -/
def detailSeg2 : String :=
  "\n  </style>\n</head>\n<body>\n  <div class=\"wf-page "

/-- Literal template text transcribed from the source builder. -/
def detailSeg3 : String :=
  "\" data-wireframe-type=\"detail_page\" data-wireframe-name=\""

/-- Literal template text transcribed from the source builder. -/
def detailSeg4 : String :=
  "\">\n    <h1>"

/-- Literal template text transcribed from the source builder. -/
def detailSeg5 : String :=
  "</h1>\n    <header class=\"wf-header\">\n      <div class=\"wf-status-bar\"></div>\n      <div class=\"wf-nav-bar\">\n        <div class=\"wf-nav-back\"></div>\n        <div class=\"wf-nav-title\">详情</div>\n        <div class=\"wf-nav-action\"></div>\n      </div>\n    </header>\n    "

/-- Literal template text transcribed from the source builder. -/
def detailMainOpen : String :=
  "\n    <main class=\"wf-content\">\n      <div class=\"wf-detail-title\">示例信息标题：展示已读/未读状态的详情内容</div>\n      <div class=\"wf-detail-meta\">作者 · 今天 10:24 · 已读状态将在阅读完成后更新</div>\n      "

/-- Literal template text transcribed from the source builder. -/
def detailPara1 : String :=
  "<p class=\"wf-detail-paragraph\">这是一段示例正文，用于说明在详情页中用户将看到的主要内容摘要，以及与已读状态相关的提示信息。</p>"

/-- Literal template text transcribed from the source builder. -/
def detailParaSep1 : String :=
  "\n      "

/-- Literal template text transcribed from the source builder. -/
def detailPara2 : String :=
  "<p class=\"wf-detail-paragraph\">可以在这里模拟两到三行的文本，让评审时能快速感知信息密度和阅读节奏。</p>"

/-- Literal template text transcribed from the source builder. -/
def detailParaSep2 : String :=
  "\n      "

/-- Literal template text transcribed from the source builder. -/
def detailPara3 : String :=
  "<p class=\"wf-detail-paragraph\">例如：阅读完成后返回列表，列表项会变为浅灰色，并在数据层记录该条内容已读。</p>"

/-- Literal template text transcribed from the source builder. -/
def detailMainClose : String :=
  "\n    </main>\n    "

/-- Literal template text transcribed from the source builder. -/
def detailSeg7 : String :=
  "\n  </div>\n</body>\n</html>\n"

/-- Literal template text transcribed from the source builder. -/
def detailHeroOpen : String :=
  "<div class=\"wf-hero\"><img src=\""

/-- Literal template text transcribed from the source builder. -/
def detailHeroClose : String :=
  "\" alt=\"详情主图\" /></div>"

/-- One placeholder candidate (source lines 107–109 / 339–341):
`(assets_dir / fname).as_uri() if (assets_dir / fname).exists() else ""`. -/
def assetUri (assetsDir : String) (fs : String → Bool) (uri : String → String)
    (fname : String) : String :=
  let p := assetsDir ++ "/" ++ fname
  if fs p then uri p else ""

/-- Asset file name of the vertical placeholder. -/
def verticalPlaceholderName : String := "vertical-general-placeholder.jpeg"

/-- Asset file name of the landscape placeholder (the stray space before
`-placeholder` is present in the source). -/
def landscapePlaceholderName : String := "landscape-general -placeholder.jpeg"

/-- Asset file name of the list-thumbnail placeholder. -/
def listThumbPlaceholderName : String := "list-thumb-placeholder.jpeg"

/-- Python `next((c for c in candidates if c), "")`: first truthy
(non-empty) element, else `""`. -/
def firstTruthy (l : List String) : String :=
  (l.find? (fun s => s != "")).getD ""

/-- Local `default_thumb_src` of the list builder (source lines 112–113):
candidates in the order list-thumbnail, vertical, landscape. -/
def list_default_thumb_src (assetsDir : String) (fs : String → Bool)
    (uri : String → String) : String :=
  firstTruthy [assetUri assetsDir fs uri listThumbPlaceholderName,
               assetUri assetsDir fs uri verticalPlaceholderName,
               assetUri assetsDir fs uri landscapePlaceholderName]

/-- Local `default_hero_src` of the detail builder (source lines 344–345):
candidates in the order vertical, landscape, list-thumbnail. -/
def detail_default_hero_src (assetsDir : String) (fs : String → Bool)
    (uri : String → String) : String :=
  firstTruthy [assetUri assetsDir fs uri verticalPlaceholderName,
               assetUri assetsDir fs uri landscapePlaceholderName,
               assetUri assetsDir fs uri listThumbPlaceholderName]

/-- The image-reference resolution shared verbatim by both builders
(source lines 115–128 and 347–359). The accumulator variable starts at
`""`; a successful probe whose status is not below 400 leaves it there
(no exception was raised, so the `except` arm does not run). -/
def resolveImageSrc (image_url default_src : String)
    (net : String → Option Nat) : String :=
  if image_url ≠ "" then
    if pyStartsWith image_url "http://" || pyStartsWith image_url "https://" then
      match net image_url with
      | some status => if status < 400 then image_url else ""
      | none => default_src
    else image_url
  else default_src

/-- Local `thumb_src` as computed by the list builder. -/
def list_thumb_src (b : Block) (assetsDir : String) (fs : String → Bool)
    (uri : String → String) (net : String → Option Nat) : String :=
  resolveImageSrc (getOrTruthy b "image_url" "")
    (list_default_thumb_src assetsDir fs uri) net

/-- Local `hero_src` as computed by the detail builder. -/
def detail_hero_src (b : Block) (assetsDir : String) (fs : String → Bool)
    (uri : String → String) (net : String → Option Nat) : String :=
  resolveImageSrc (getOrTruthy b "image_url" "")
    (detail_default_hero_src assetsDir fs uri) net

/-- Local `page_class` (source lines 101 / 334). -/
def pageClass (variant : String) : String :=
  if variant = "mobile" then "wf-page--mobile" else "wf-page--web"

/-- The list-page f-string (source lines 252–322) as a function of its
interpolated locals. -/
def listPageDoc (name title notes thumb_src page_class : String) : String :=
  listSeg0 ++ title ++ listSeg1 ++ listCss ++ listSeg2 ++ page_class ++
  listSeg3 ++ name ++ listSeg4 ++ title ++ listSeg5 ++ thumb_src ++
  listSeg6 ++ thumb_src ++ listSeg7 ++ thumb_src ++ listSeg8 ++ thumb_src ++
  listSeg9 ++ thumb_src ++ listSeg10 ++ thumb_src ++ listSeg11 ++
  wfFooterOpen ++ notes ++ wfFooterClose ++ listSeg12

/-- Source `_build_list_page_html` (lines 93–323). -/
def buildListPageHtml (b : Block) (assetsDir : String) (fs : String → Bool)
    (uri : String → String) (net : String → Option Nat) : String :=
  listPageDoc (getOrTruthy b "name" "list_page")
    (getOrTruthy b "title" "列表页线框")
    (getOrTruthy b "notes" "")
    (list_thumb_src b assetsDir fs uri net)
    (pageClass (pyToLower (getOrTruthy b "variant" "mobile")))

/-- The hero-image element emitted when `hero_src` is truthy
(source line 476). -/
def detailHeroDiv (hero_src : String) : String :=
  detailHeroOpen ++ hero_src ++ detailHeroClose

/-- The detail-page f-string (source lines 456–490) as a function of its
interpolated locals; the hero element appears only when `hero_src` is
truthy, else the hole contributes the empty string. -/
def detailPageDoc (name title notes hero_src page_class : String) : String :=
  detailSeg0 ++ title ++ detailSeg1 ++ detailCss ++ detailSeg2 ++ page_class ++
  detailSeg3 ++ name ++ detailSeg4 ++ title ++ detailSeg5 ++
  (if hero_src ≠ "" then detailHeroDiv hero_src else "") ++
  detailMainOpen ++ detailPara1 ++ detailParaSep1 ++ detailPara2 ++
  detailParaSep2 ++ detailPara3 ++ detailMainClose ++
  wfFooterOpen ++ notes ++ wfFooterClose ++ detailSeg7

/-- Source `_build_detail_page_html` (lines 326–491). -/
def buildDetailPageHtml (b : Block) (assetsDir : String) (fs : String → Bool)
    (uri : String → String) (net : String → Option Nat) : String :=
  detailPageDoc (getOrTruthy b "name" "detail_page")
    (getOrTruthy b "title" "详情页线框")
    (getOrTruthy b "notes" "")
    (detail_hero_src b assetsDir fs uri net)
    (pageClass (pyToLower (getOrTruthy b "variant" "mobile")))

/-- Observable outcome of `generate_wireframe` for one block: either an
HTML file written at a path, or a skip notice printed to the console. -/
inductive GenResult
  | wrote (path : String) (html : String)
  | skipped (msg : String)
deriving DecidableEq

/-- Source `generate_wireframe` (lines 494–510). The output path joins
`base_dir` and the block's `output_path` (every caller passes a block
containing `output_path`, so the `getD ""` default is never used);
dispatch is on the lowercased `type`, defaulting to `list_page`. -/
def generate_wireframe (b : Block) (baseDir assetsDir : String)
    (fs : String → Bool) (uri : String → String)
    (net : String → Option Nat) : GenResult :=
  let output_path := baseDir ++ "/" ++ (dget b "output_path").getD ""
  let wf_type := pyToLower (getOrTruthy b "type" "list_page")
  if wf_type = "list_page" then
    GenResult.wrote output_path (buildListPageHtml b assetsDir fs uri net)
  else if wf_type = "detail_page" then
    GenResult.wrote output_path (buildDetailPageHtml b assetsDir fs uri net)
  else
    GenResult.skipped ("[skip] Unsupported wireframe type: " ++ pyRepr wf_type ++
      " for " ++ output_path)

/-- The per-block loop of `main` (source lines 530–532). -/
def runBlocks (blocks : List Block) (baseDir assetsDir : String)
    (fs : String → Bool) (uri : String → String)
    (net : String → Option Nat) : List GenResult :=
  blocks.map (fun b => generate_wireframe b baseDir assetsDir fs uri net)

/-- End-to-end outcomes of `main` on a document: parse, then generate
per block (source lines 513–532). -/
def mainOutputs (text : String) (baseDir assetsDir : String)
    (fs : String → Bool) (uri : String → String)
    (net : String → Option Nat) : List GenResult :=
  runBlocks (parse_blocks text) baseDir assetsDir fs uri net

/-! ## Association-list lemmas -/

theorem dget_dinsert_self (b : Block) (k v : String) :
    dget (dinsert b k v) k = some v := by
  induction b with
  | nil => simp [dinsert, dget]
  | cons p t ih =>
    obtain ⟨k', v'⟩ := p
    by_cases h : k' = k
    · subst h; simp [dinsert, dget]
    · simp [dinsert, dget, h, ih]

theorem dget_dinsert_ne (b : Block) (k v k' : String) (h : k' ≠ k) :
    dget (dinsert b k v) k' = dget b k' := by
  induction b with
  | nil => simp [dinsert, dget, Ne.symm h]
  | cons p t ih =>
    obtain ⟨k₀, v₀⟩ := p
    by_cases h₀ : k₀ = k
    · subst h₀
      simp [dinsert, dget, Ne.symm h]
    · simp only [dinsert, if_neg h₀]
      by_cases h₁ : k₀ = k'
      · simp [dget, h₁]
      · simp [dget, h₁, ih]

theorem dget_derase_self (b : Block) (k : String) :
    dget (derase b k) k = none := by
  induction b with
  | nil => simp [derase, dget]
  | cons p t ih =>
    obtain ⟨k₀, v₀⟩ := p
    by_cases h : k₀ = k
    · subst h
      simpa [derase, List.filter_cons] using ih
    · simpa [derase, List.filter_cons, h, dget] using ih

theorem dget_derase_ne (b : Block) (k k' : String) (h : k' ≠ k) :
    dget (derase b k) k' = dget b k' := by
  induction b with
  | nil => simp [derase, dget]
  | cons p t ih =>
    obtain ⟨k₀, v₀⟩ := p
    by_cases h₀ : k₀ = k
    · subst h₀
      simpa [derase, List.filter_cons, dget, Ne.symm h] using ih
    · by_cases h₁ : k₀ = k'
      · simp [derase, List.filter_cons, h₀, dget, h₁, h]
      · simpa [derase, List.filter_cons, h₀, dget, h₁] using ih

theorem getOrTruthy_insert_empty_eq_erase (b : Block) (k k' d : String) :
    getOrTruthy (dinsert b k "") k' d = getOrTruthy (derase b k) k' d := by
  by_cases h : k' = k
  · subst h
    simp [getOrTruthy, dget_dinsert_self, dget_derase_self]
  · simp [getOrTruthy, dget_dinsert_ne b k "" k' h, dget_derase_ne b k k' h]

/-! ## Parser lemmas -/

theorem parseKeyValues_empty_or_has_output_path (c : String) :
    parseKeyValues c = [] ∨ (dget (parseKeyValues c) "output_path").isSome = true := by
  by_cases h : (dget ((pySplitlines c).foldl processLine []) "output_path").isSome
  · right; simp [parseKeyValues, h]
  · left; simp [parseKeyValues, h]

/-- Claim C1: a block whose parsed key-values lack `output_path` is
dropped before reaching any builder: `_parse_key_values` returns the
empty mapping for it, `parse_blocks` omits it, and consequently every
outcome of the driver (file written or skip notice) stems from a block
that does contain `output_path` — no output and no error for the
dropped block. -/
theorem c1_missing_output_path_is_dropped :
    (∀ content : String,
        dget ((pySplitlines content).foldl processLine []) "output_path" = none →
          parseKeyValues content = []) ∧
    (∀ text : String, ∀ b ∈ parse_blocks text, (dget b "output_path").isSome = true) ∧
    (∀ (text baseDir assetsDir : String) (fs : String → Bool) (uri : String → String)
        (net : String → Option Nat) (r : GenResult),
        r ∈ mainOutputs text baseDir assetsDir fs uri net →
        ∃ b, b ∈ parse_blocks text ∧ (dget b "output_path").isSome = true ∧
          r = generate_wireframe b baseDir assetsDir fs uri net) := by
  have key : ∀ text : String, ∀ b ∈ parse_blocks text, (dget b "output_path").isSome = true := by
    intro text b hb
    simp only [parse_blocks, List.mem_filter, List.mem_map] at hb
    obtain ⟨⟨c, _, hc⟩, hne⟩ := hb
    rcases parseKeyValues_empty_or_has_output_path c with h | h
    · rw [h] at hc; rw [← hc] at hne; simp at hne
    · rwa [hc] at h
  refine ⟨?_, key, ?_⟩
  · intro content h
    simp [parseKeyValues, h]
  · intro text baseDir assetsDir fs uri net r hr
    simp only [mainOutputs, runBlocks, List.mem_map] at hr
    obtain ⟨b, hb, hcons⟩ := hr
    exact ⟨b, hb, key text b hb, hcons.symm⟩

/-- Witness for C1 at concrete inputs: a body without `output_path`
parses to the empty mapping, and a concrete document's single parsed
block does contain `output_path`. -/
theorem c1_witness :
    parseKeyValues "name: x" = [] ∧
    (dget [("output_path", "a.html")] "output_path").isSome = true :=
  ⟨c1_missing_output_path_is_dropped.1 "name: x" rfl,
   c1_missing_output_path_is_dropped.2.1 "<!-- AI-WIREFRAME\noutput_path: a.html\n-->"
     [("output_path", "a.html")] (by decide)⟩

theorem dropWhile_head?_not (p : Char → Bool) (l : List Char) :
    ∀ x, (l.dropWhile p).head? = some x → p x = false := by
  induction l with
  | nil => intro x hx; simp [List.dropWhile] at hx
  | cons c t ih =>
    intro x hx
    by_cases h : p c
    · rw [List.dropWhile_cons_of_pos h] at hx
      exact ih x hx
    · rw [List.dropWhile_cons_of_neg h] at hx
      simp only [List.head?_cons, Option.some.injEq] at hx
      rw [← hx]
      simpa using h

theorem pyStripList_decomp (p : Char → Bool) (l : List Char) :
    ∃ a b, l = a ++ pyStripList p l ++ b ∧
      (∀ x ∈ a, p x = true) ∧ (∀ x ∈ b, p x = true) ∧
      (∀ x, (pyStripList p l).head? = some x → p x = false) ∧
      (∀ x, (pyStripList p l).getLast? = some x → p x = false) := by
  have hA : pyStripList p l ++ ((l.dropWhile p).reverse.takeWhile p).reverse = l.dropWhile p := by
    have h1 := List.takeWhile_append_dropWhile p (l.dropWhile p).reverse
    have h2 := congrArg List.reverse h1
    rw [List.reverse_append, List.reverse_reverse] at h2
    exact h2
  refine ⟨l.takeWhile p, ((l.dropWhile p).reverse.takeWhile p).reverse, ?_, ?_, ?_, ?_, ?_⟩
  · conv_lhs => rw [← List.takeWhile_append_dropWhile p l, ← hA]
    rw [List.append_assoc]
  · intro x hx; exact List.mem_takeWhile_imp hx
  · intro x hx; rw [List.mem_reverse] at hx; exact List.mem_takeWhile_imp hx
  · intro x hx
    cases hs : pyStripList p l with
    | nil => rw [hs] at hx; simp at hx
    | cons y ys =>
      rw [hs] at hx
      simp only [List.head?_cons, Option.some.injEq] at hx
      rw [← hx]
      have hdw : l.dropWhile p = y :: (ys ++ ((l.dropWhile p).reverse.takeWhile p).reverse) := by
        conv_lhs => rw [← hA]
        rw [hs]; simp
      exact dropWhile_head?_not p l y (by rw [hdw]; rfl)
  · intro x hx
    have hrev : (pyStripList p l).getLast? = ((l.dropWhile p).reverse.dropWhile p).head? := by
      unfold pyStripList
      exact List.getLast?_reverse _
    rw [hrev] at hx
    exact dropWhile_head?_not p _ x hx

theorem pyStripChar_spec (c : Char) (s : String) :
    ∃ a b, s.toList = a ++ (pyStripChar c s).toList ++ b ∧
      (∀ x ∈ a, x = c) ∧ (∀ x ∈ b, x = c) ∧
      (∀ x, (pyStripChar c s).toList.head? = some x → x ≠ c) ∧
      (∀ x, (pyStripChar c s).toList.getLast? = some x → x ≠ c) := by
  obtain ⟨a, b, hdec, ha, hb, hh, hl⟩ := pyStripList_decomp (fun x => x = c) s.toList
  refine ⟨a, b, hdec, ?_, ?_, ?_, ?_⟩
  · intro x hx; simpa using ha x hx
  · intro x hx; simpa using hb x hx
  · intro x hx; simpa using hh x hx
  · intro x hx; simpa using hl x hx

theorem splitFirstColon_spec (l k v : List Char) (h : splitFirstColon l = some (k, v)) :
    l = k ++ ':' :: v ∧ ':' ∉ k := by
  induction l generalizing k v with
  | nil => simp [splitFirstColon] at h
  | cons c t ih =>
    by_cases hc : c = ':'
    · subst hc
      rw [show splitFirstColon (':' :: t) = some ([], t) from rfl] at h
      simp only [Option.some.injEq, Prod.mk.injEq] at h
      obtain ⟨hk, hv⟩ := h
      subst hk; subst hv
      exact ⟨rfl, by simp⟩
    · simp only [splitFirstColon, if_neg hc] at h
      cases e : splitFirstColon t with
      | none => rw [e] at h; simp at h
      | some ab =>
        obtain ⟨a, b⟩ := ab
        rw [e] at h
        simp only [Option.some.injEq, Prod.mk.injEq] at h
        obtain ⟨hk, hv⟩ := h
        subst hk; subst hv
        obtain ⟨ht, hna⟩ := ih a b e
        refine ⟨by rw [ht]; rfl, ?_⟩
        simp only [List.mem_cons, not_or]
        exact ⟨Ne.symm hc, hna⟩

theorem splitFirstColon_eq_none (l : List Char) (h : ∀ c ∈ l, c ≠ ':') :
    splitFirstColon l = none := by
  induction l with
  | nil => rfl
  | cons c t ih =>
    have hc : c ≠ ':' := h c (by simp)
    rw [splitFirstColon, if_neg hc, ih (fun x hx => h x (by simp [hx]))]

theorem processLine_record (result : Block) (line : String) (k v : List Char)
    (hsplit : splitFirstColon (pyStrip line).toList = some (k, v))
    (hhash : pyStartsWith (pyStrip line) "#" = false)
    (hkey : pyStrip (String.mk k) ≠ "") :
    processLine result line =
      dinsert result (pyStrip (String.mk k))
        (pyStripChar singleQuoteChar (pyStripChar doubleQuoteChar (pyStrip (String.mk v)))) := by
  have hne : ¬ pyStrip line = "" := by
    intro h0
    rw [h0] at hsplit
    exact Option.noConfusion hsplit
  simp only [processLine]
  rw [hsplit]
  simp [hne, hhash, hkey]

/-- Claim C7 (corrected, amended form): for every block-body line whose
stripped text contains a colon, the parser splits at the *first* colon
(the key contains none), trims whitespace from both key and value, and
then removes *all* leading and trailing straight double-quote
characters, then *all* leading and trailing straight single-quote
characters, from the value — each end independently, with no matching
between the two ends required (Python `strip`). The two existential
conjuncts characterise each quote-stripping stage declaratively: the
trimmed value splits as quote-runs around the result, and the result
neither starts nor ends with the stripped quote character. -/
theorem c7_amended_first_colon_split_and_quote_stripping
    (result : Block) (line : String) (k v : List Char)
    (hsplit : splitFirstColon (pyStrip line).toList = some (k, v))
    (hhash : pyStartsWith (pyStrip line) "#" = false)
    (hkey : pyStrip (String.mk k) ≠ "") :
    (pyStrip line).toList = k ++ ':' :: v ∧ ':' ∉ k ∧
    processLine result line =
      dinsert result (pyStrip (String.mk k))
        (pyStripChar singleQuoteChar (pyStripChar doubleQuoteChar (pyStrip (String.mk v)))) ∧
    (∃ a b, (pyStrip (String.mk v)).toList =
        a ++ (pyStripChar doubleQuoteChar (pyStrip (String.mk v))).toList ++ b ∧
      (∀ x ∈ a, x = doubleQuoteChar) ∧ (∀ x ∈ b, x = doubleQuoteChar) ∧
      (∀ x, (pyStripChar doubleQuoteChar (pyStrip (String.mk v))).toList.head? = some x →
        x ≠ doubleQuoteChar) ∧
      (∀ x, (pyStripChar doubleQuoteChar (pyStrip (String.mk v))).toList.getLast? = some x →
        x ≠ doubleQuoteChar)) ∧
    (∃ a b, (pyStripChar doubleQuoteChar (pyStrip (String.mk v))).toList =
        a ++ (pyStripChar singleQuoteChar
          (pyStripChar doubleQuoteChar (pyStrip (String.mk v)))).toList ++ b ∧
      (∀ x ∈ a, x = singleQuoteChar) ∧ (∀ x ∈ b, x = singleQuoteChar) ∧
      (∀ x, (pyStripChar singleQuoteChar
          (pyStripChar doubleQuoteChar (pyStrip (String.mk v)))).toList.head? = some x →
        x ≠ singleQuoteChar) ∧
      (∀ x, (pyStripChar singleQuoteChar
          (pyStripChar doubleQuoteChar (pyStrip (String.mk v)))).toList.getLast? = some x →
        x ≠ singleQuoteChar)) := by
  obtain ⟨hl, hnk⟩ := splitFirstColon_spec _ k v hsplit
  exact ⟨hl, hnk, processLine_record result line k v hsplit hhash hkey,
    pyStripChar_spec doubleQuoteChar (pyStrip (String.mk v)),
    pyStripChar_spec singleQuoteChar (pyStripChar doubleQuoteChar (pyStrip (String.mk v)))⟩

/-- Claim C7, counterexample to the claim as stated: on the line
`notes: "hello` the value carries an *unmatched* leading double quote;
the claim requires it to be left in place (value `"hello`), but the
source's `strip('"')` removes it (value `hello`). -/
theorem c7_counterexample :
    dget (parseKeyValues "output_path: x\nnotes: \"hello") "notes" = some "hello" ∧
    dget (parseKeyValues "output_path: x\nnotes: \"hello") "notes" ≠ some "\"hello" :=
  ⟨by decide, by decide⟩

/-- Witness for the amended C7 at a concrete line. -/
theorem c7_amended_witness :
    processLine [] "notes: \"hello" = [("notes", "hello")] := by
  have h := (c7_amended_first_colon_split_and_quote_stripping []
      "notes: \"hello" "notes".toList " \"hello".toList (by decide) (by decide)
      (by decide)).2.2.1
  rw [h]
  decide

/-- Claim C8 (corrected, amended form): only `:` acts as a separator;
a line containing no colon at all — in particular a `key= value` line —
is skipped entirely and leaves the accumulated mapping unchanged. -/
theorem c8_amended_equals_sign_is_not_a_separator (result : Block) (line : String)
    (h : ∀ c ∈ line.toList, c ≠ ':') :
    processLine result line = result := by
  have hsub : ∀ c ∈ (pyStrip line).toList, c ≠ ':' := by
    intro c hc
    obtain ⟨a, b, hdec, -, -, -, -⟩ := pyStripList_decomp pyIsSpace line.toList
    apply h c
    rw [hdec]
    simp only [List.mem_append]
    exact Or.inl (Or.inr hc)
  simp only [processLine]
  rw [splitFirstColon_eq_none _ hsub]
  split <;> rfl

/-- Claim C8, counterexample to the claim as stated: the claim requires
`foo= bar` to record `foo ↦ bar`, but the parser skips the line (no
colon), leaving only the `output_path` entry. -/
theorem c8_counterexample :
    dget (parseKeyValues "output_path: x\nfoo= bar") "foo" = none ∧
    parseKeyValues "output_path: x\nfoo= bar" = [("output_path", "x")] :=
  ⟨by decide, by decide⟩

/-- Witness for the amended C8 at a concrete line. -/
theorem c8_amended_witness :
    processLine [("output_path", "x")] "foo= bar" = [("output_path", "x")] :=
  c8_amended_equals_sign_is_not_a_separator [("output_path", "x")] "foo= bar" (by decide)

theorem firstTruthy_cons (s : String) (l : List String) :
    firstTruthy (s :: l) = if s = "" then firstTruthy l else s := by
  by_cases h : s = ""
  · simp [firstTruthy, h]
  · have hb : (s != "") = true := by simp [h]
    simp [firstTruthy, List.find?, hb, h]

theorem list_default_thumb_src_eq (assetsDir : String) (fs : String → Bool)
    (uri : String → String) (hu : ∀ p, uri p ≠ "") :
    list_default_thumb_src assetsDir fs uri =
      (if fs (assetsDir ++ "/" ++ listThumbPlaceholderName) then
          uri (assetsDir ++ "/" ++ listThumbPlaceholderName)
        else if fs (assetsDir ++ "/" ++ verticalPlaceholderName) then
          uri (assetsDir ++ "/" ++ verticalPlaceholderName)
        else if fs (assetsDir ++ "/" ++ landscapePlaceholderName) then
          uri (assetsDir ++ "/" ++ landscapePlaceholderName)
        else "") := by
  unfold list_default_thumb_src assetUri
  by_cases h1 : fs (assetsDir ++ "/" ++ listThumbPlaceholderName) <;>
  by_cases h2 : fs (assetsDir ++ "/" ++ verticalPlaceholderName) <;>
  by_cases h3 : fs (assetsDir ++ "/" ++ landscapePlaceholderName) <;>
  simp [firstTruthy_cons, firstTruthy, h1, h2, h3, hu]

theorem detail_default_hero_src_eq (assetsDir : String) (fs : String → Bool)
    (uri : String → String) (hu : ∀ p, uri p ≠ "") :
    detail_default_hero_src assetsDir fs uri =
      (if fs (assetsDir ++ "/" ++ verticalPlaceholderName) then
          uri (assetsDir ++ "/" ++ verticalPlaceholderName)
        else if fs (assetsDir ++ "/" ++ landscapePlaceholderName) then
          uri (assetsDir ++ "/" ++ landscapePlaceholderName)
        else if fs (assetsDir ++ "/" ++ listThumbPlaceholderName) then
          uri (assetsDir ++ "/" ++ listThumbPlaceholderName)
        else "") := by
  unfold detail_default_hero_src assetUri
  by_cases h1 : fs (assetsDir ++ "/" ++ verticalPlaceholderName) <;>
  by_cases h2 : fs (assetsDir ++ "/" ++ landscapePlaceholderName) <;>
  by_cases h3 : fs (assetsDir ++ "/" ++ listThumbPlaceholderName) <;>
  simp [firstTruthy_cons, firstTruthy, h1, h2, h3, hu]

/-- Claim C6: with no usable image reference, the default image source
is the first candidate whose asset file exists — order list-thumbnail,
vertical, landscape for the list page and vertical, landscape,
list-thumbnail for the detail page — and the empty string when none of
the three asset files exists. (`as_uri` of an existing file is never
empty, captured by the hypothesis on `uri`.) -/
theorem c6_placeholder_candidate_order (assetsDir : String) (fs : String → Bool)
    (uri : String → String) (hu : ∀ p, uri p ≠ "") :
    list_default_thumb_src assetsDir fs uri =
      (if fs (assetsDir ++ "/" ++ listThumbPlaceholderName) then
          uri (assetsDir ++ "/" ++ listThumbPlaceholderName)
        else if fs (assetsDir ++ "/" ++ verticalPlaceholderName) then
          uri (assetsDir ++ "/" ++ verticalPlaceholderName)
        else if fs (assetsDir ++ "/" ++ landscapePlaceholderName) then
          uri (assetsDir ++ "/" ++ landscapePlaceholderName)
        else "") ∧
    detail_default_hero_src assetsDir fs uri =
      (if fs (assetsDir ++ "/" ++ verticalPlaceholderName) then
          uri (assetsDir ++ "/" ++ verticalPlaceholderName)
        else if fs (assetsDir ++ "/" ++ landscapePlaceholderName) then
          uri (assetsDir ++ "/" ++ landscapePlaceholderName)
        else if fs (assetsDir ++ "/" ++ listThumbPlaceholderName) then
          uri (assetsDir ++ "/" ++ listThumbPlaceholderName)
        else "") :=
  ⟨list_default_thumb_src_eq assetsDir fs uri hu,
   detail_default_hero_src_eq assetsDir fs uri hu⟩

/-- Witness for C6: only the vertical placeholder exists on disk; the
list default picks it as second candidate, the detail default as first;
with no assets at all both defaults are empty. -/
theorem c6_witness :
    list_default_thumb_src "A" (fun p => p = "A/" ++ verticalPlaceholderName) (fun _ => "u") = "u" ∧
    detail_default_hero_src "A" (fun p => p = "A/" ++ verticalPlaceholderName) (fun _ => "u") = "u" ∧
    list_default_thumb_src "A" (fun _ => false) (fun _ => "u") = "" := by
  have h := c6_placeholder_candidate_order "A"
    (fun p => p = "A/" ++ verticalPlaceholderName) (fun _ => "u") (fun _ => by show "u" ≠ ""; decide)
  have h0 := c6_placeholder_candidate_order "A" (fun _ => false) (fun _ => "u")
    (fun _ => by show "u" ≠ ""; decide)
  refine ⟨?_, ?_, ?_⟩
  · rw [h.1]; decide
  · rw [h.2]; decide
  · rw [h0.1]; decide

/-- Claim C2: builder image-reference resolution follows the three-case
rule. (1) An empty reference yields the role-specific default: the
first existing bundled placeholder, or `""` when none exists. (2) An
`http://`/`https://` reference is probed; a response status below 400
keeps the URL unchanged, while an exception of any kind (`net _ = none`)
falls back to case (1)'s value. (3) Any other non-empty reference is
used verbatim, independent of the network oracle. -/
theorem c2_image_resolution_three_cases
    (ref d : String) (net net' : String → Option Nat)
    (b : Block) (assetsDir : String) (fs : String → Bool) (uri : String → String)
    (hu : ∀ p, uri p ≠ "") :
    (ref = "" → resolveImageSrc ref d net = d) ∧
    (getOrTruthy b "image_url" "" = "" →
      list_thumb_src b assetsDir fs uri net =
        (if fs (assetsDir ++ "/" ++ listThumbPlaceholderName) then
            uri (assetsDir ++ "/" ++ listThumbPlaceholderName)
          else if fs (assetsDir ++ "/" ++ verticalPlaceholderName) then
            uri (assetsDir ++ "/" ++ verticalPlaceholderName)
          else if fs (assetsDir ++ "/" ++ landscapePlaceholderName) then
            uri (assetsDir ++ "/" ++ landscapePlaceholderName)
          else "") ∧
      detail_hero_src b assetsDir fs uri net =
        (if fs (assetsDir ++ "/" ++ verticalPlaceholderName) then
            uri (assetsDir ++ "/" ++ verticalPlaceholderName)
          else if fs (assetsDir ++ "/" ++ landscapePlaceholderName) then
            uri (assetsDir ++ "/" ++ landscapePlaceholderName)
          else if fs (assetsDir ++ "/" ++ listThumbPlaceholderName) then
            uri (assetsDir ++ "/" ++ listThumbPlaceholderName)
          else "")) ∧
    (∀ s, (pyStartsWith ref "http://" || pyStartsWith ref "https://") = true →
      net ref = some s → s < 400 → resolveImageSrc ref d net = ref) ∧
    ((pyStartsWith ref "http://" || pyStartsWith ref "https://") = true →
      net ref = none → resolveImageSrc ref d net = d) ∧
    (ref ≠ "" → (pyStartsWith ref "http://" || pyStartsWith ref "https://") = false →
      resolveImageSrc ref d net = ref ∧
      resolveImageSrc ref d net = resolveImageSrc ref d net') := by
  have hne_of_start : (pyStartsWith ref "http://" || pyStartsWith ref "https://") = true →
      ref ≠ "" := by
    intro hstart h0
    subst h0
    exact absurd hstart (by decide)
  refine ⟨?_, ?_, ?_, ?_, ?_⟩
  · intro h0; subst h0; simp [resolveImageSrc]
  · intro himg
    unfold list_thumb_src detail_hero_src
    rw [himg]
    constructor
    · rw [show resolveImageSrc "" (list_default_thumb_src assetsDir fs uri) net =
          list_default_thumb_src assetsDir fs uri by simp [resolveImageSrc]]
      exact list_default_thumb_src_eq assetsDir fs uri hu
    · rw [show resolveImageSrc "" (detail_default_hero_src assetsDir fs uri) net =
          detail_default_hero_src assetsDir fs uri by simp [resolveImageSrc]]
      exact detail_default_hero_src_eq assetsDir fs uri hu
  · intro s hstart hnet hlt
    have hne := hne_of_start hstart
    simp [resolveImageSrc, hne, hstart, hnet, hlt]
  · intro hstart hnet
    have hne := hne_of_start hstart
    simp [resolveImageSrc, hne, hstart, hnet]
  · intro hne hstart
    constructor <;> simp [resolveImageSrc, hne, hstart]

/-- Witness for C2: every case at concrete inputs — empty reference,
reachable URL, failing URL, and a bare local reference (under two
different network oracles). -/
theorem c2_witness :
    resolveImageSrc "" "D" (fun _ => none) = "D" ∧
    resolveImageSrc "https://x" "D" (fun _ => some 200) = "https://x" ∧
    resolveImageSrc "https://x" "D" (fun _ => none) = "D" ∧
    resolveImageSrc "img/a.png" "D" (fun _ => none) = "img/a.png" ∧
    resolveImageSrc "img/a.png" "D" (fun _ => none) =
      resolveImageSrc "img/a.png" "D" (fun _ => some 500) := by
  refine ⟨?_, ?_, ?_, ?_, ?_⟩
  · exact (c2_image_resolution_three_cases "" "D" (fun _ => none) (fun _ => none)
      [] "A" (fun _ => false) (fun _ => "u") (fun _ => by show "u" ≠ ""; decide)).1 rfl
  · exact (c2_image_resolution_three_cases "https://x" "D" (fun _ => some 200) (fun _ => none)
      [] "A" (fun _ => false) (fun _ => "u") (fun _ => by show "u" ≠ ""; decide)).2.2.1 200 (by decide) rfl
      (by decide)
  · exact (c2_image_resolution_three_cases "https://x" "D" (fun _ => none) (fun _ => none)
      [] "A" (fun _ => false) (fun _ => "u") (fun _ => by show "u" ≠ ""; decide)).2.2.2.1 (by decide) rfl
  · exact ((c2_image_resolution_three_cases "img/a.png" "D" (fun _ => none) (fun _ => some 500)
      [] "A" (fun _ => false) (fun _ => "u") (fun _ => by show "u" ≠ ""; decide)).2.2.2.2 (by decide)
      (by decide)).1
  · exact ((c2_image_resolution_three_cases "img/a.png" "D" (fun _ => none) (fun _ => some 500)
      [] "A" (fun _ => false) (fun _ => "u") (fun _ => by show "u" ≠ ""; decide)).2.2.2.2 (by decide)
      (by decide)).2

theorem getOrTruthy_congr (b₁ b₂ : Block) (k d : String) (h : dget b₁ k = dget b₂ k) :
    getOrTruthy b₁ k d = getOrTruthy b₂ k d := by
  unfold getOrTruthy
  rw [h]

theorem buildListPageHtml_congr (b₁ b₂ : Block) (assetsDir : String) (fs : String → Bool)
    (uri : String → String) (net : String → Option Nat)
    (hname : dget b₁ "name" = dget b₂ "name")
    (htitle : dget b₁ "title" = dget b₂ "title")
    (hnotes : dget b₁ "notes" = dget b₂ "notes")
    (himg : dget b₁ "image_url" = dget b₂ "image_url")
    (hvar : dget b₁ "variant" = dget b₂ "variant") :
    buildListPageHtml b₁ assetsDir fs uri net = buildListPageHtml b₂ assetsDir fs uri net := by
  unfold buildListPageHtml list_thumb_src
  rw [getOrTruthy_congr _ _ _ _ hname, getOrTruthy_congr _ _ _ _ htitle,
    getOrTruthy_congr _ _ _ _ hnotes, getOrTruthy_congr _ _ _ _ himg,
    getOrTruthy_congr _ _ _ _ hvar]

theorem buildDetailPageHtml_congr (b₁ b₂ : Block) (assetsDir : String) (fs : String → Bool)
    (uri : String → String) (net : String → Option Nat)
    (hname : dget b₁ "name" = dget b₂ "name")
    (htitle : dget b₁ "title" = dget b₂ "title")
    (hnotes : dget b₁ "notes" = dget b₂ "notes")
    (himg : dget b₁ "image_url" = dget b₂ "image_url")
    (hvar : dget b₁ "variant" = dget b₂ "variant") :
    buildDetailPageHtml b₁ assetsDir fs uri net = buildDetailPageHtml b₂ assetsDir fs uri net := by
  unfold buildDetailPageHtml detail_hero_src
  rw [getOrTruthy_congr _ _ _ _ hname, getOrTruthy_congr _ _ _ _ htitle,
    getOrTruthy_congr _ _ _ _ hnotes, getOrTruthy_congr _ _ _ _ himg,
    getOrTruthy_congr _ _ _ _ hvar]

theorem pyToLower_empty_iff (s : String) : pyToLower s = "" ↔ s = "" := by
  constructor
  · intro h
    have hd := congrArg String.data h
    simp only [pyToLower] at hd
    cases s with
    | mk data =>
      simp only [String.toList] at hd
      have hdata : data = [] := List.map_eq_nil_iff.mp hd
      rw [hdata]
  · intro h; rw [h]; rfl

/-- Claim C5: `generate_wireframe` dispatches on the lowercased `type`
field (case-insensitively: only `pyToLower` of the field matters),
defaults to the list-page builder when `type` is absent, and for any
other type writes no file, returning only the skip message; the driver
loop processes each block independently, so every other block in the
same document still produces its own result. -/
theorem c5_type_dispatch (b : Block) (baseDir assetsDir : String) (fs : String → Bool)
    (uri : String → String) (net : String → Option Nat) :
    (dget b "type" = none →
      generate_wireframe b baseDir assetsDir fs uri net =
        GenResult.wrote (baseDir ++ "/" ++ (dget b "output_path").getD "")
          (buildListPageHtml b assetsDir fs uri net)) ∧
    (pyToLower (getOrTruthy b "type" "list_page") ≠ "list_page" →
      pyToLower (getOrTruthy b "type" "list_page") ≠ "detail_page" →
      generate_wireframe b baseDir assetsDir fs uri net =
        GenResult.skipped ("[skip] Unsupported wireframe type: " ++
          pyRepr (pyToLower (getOrTruthy b "type" "list_page")) ++ " for " ++
          (baseDir ++ "/" ++ (dget b "output_path").getD ""))) ∧
    (∀ s s' : String, pyToLower s = pyToLower s' →
      generate_wireframe (dinsert b "type" s) baseDir assetsDir fs uri net =
        generate_wireframe (dinsert b "type" s') baseDir assetsDir fs uri net) ∧
    (∀ pre post : List Block,
      runBlocks (pre ++ b :: post) baseDir assetsDir fs uri net =
        runBlocks pre baseDir assetsDir fs uri net ++
          generate_wireframe b baseDir assetsDir fs uri net ::
            runBlocks post baseDir assetsDir fs uri net) := by
  refine ⟨?_, ?_, ?_, ?_⟩
  · intro hnone
    have ht : getOrTruthy b "type" "list_page" = "list_page" := by
      unfold getOrTruthy; rw [hnone]
    simp only [generate_wireframe, ht]
    rw [if_pos (show pyToLower "list_page" = "list_page" from rfl)]
  · intro h1 h2
    simp only [generate_wireframe]
    rw [if_neg h1, if_neg h2]
  · intro s s' hss
    have htype : ∀ z : String, getOrTruthy (dinsert b "type" z) "type" "list_page" =
        if z = "" then "list_page" else z := by
      intro z
      unfold getOrTruthy
      rw [dget_dinsert_self]
    have hget : ∀ (z : String) (k : String), k ≠ "type" →
        dget (dinsert b "type" z) k = dget (dinsert b "type" s') k := by
      intro z k hk
      rw [dget_dinsert_ne _ _ _ _ hk, dget_dinsert_ne _ _ _ _ hk]
    have hlower : pyToLower (getOrTruthy (dinsert b "type" s) "type" "list_page") =
        pyToLower (getOrTruthy (dinsert b "type" s') "type" "list_page") := by
      rw [htype s, htype s']
      by_cases h : s = ""
      · have h' : s' = "" := (pyToLower_empty_iff s').mp (by rw [← hss, h]; rfl)
        rw [h, h']
      · have h' : s' ≠ "" := fun he =>
          h ((pyToLower_empty_iff s).mp (by rw [hss, he]; rfl))
        rw [if_neg h, if_neg h']
        exact hss
    have e2 := buildListPageHtml_congr (dinsert b "type" s) (dinsert b "type" s')
      assetsDir fs uri net (hget s "name" (by decide)) (hget s "title" (by decide))
      (hget s "notes" (by decide)) (hget s "image_url" (by decide))
      (hget s "variant" (by decide))
    have e3 := buildDetailPageHtml_congr (dinsert b "type" s) (dinsert b "type" s')
      assetsDir fs uri net (hget s "name" (by decide)) (hget s "title" (by decide))
      (hget s "notes" (by decide)) (hget s "image_url" (by decide))
      (hget s "variant" (by decide))
    have e4 : dget (dinsert b "type" s) "output_path" = dget (dinsert b "type" s') "output_path" :=
      hget s "output_path" (by decide)
    simp only [generate_wireframe]
    rw [hlower, e2, e3, e4]
  · intro pre post
    simp [runBlocks]

/-- Witness for C5: a block with `type: unknown_type` is skipped with
the source's message, a block without `type` is written via the list
builder, `TYPE` values differing only in case dispatch identically, and
a surrounding document still yields results for the neighbours. -/
theorem c5_witness :
    generate_wireframe [("output_path", "o.html"), ("type", "unknown_type")] "B" "A"
        (fun _ => false) (fun p => p) (fun _ => none) =
      GenResult.skipped "[skip] Unsupported wireframe type: 'unknown_type' for B/o.html" ∧
    generate_wireframe [("output_path", "o.html")] "B" "A"
        (fun _ => false) (fun p => p) (fun _ => none) =
      GenResult.wrote "B/o.html"
        (buildListPageHtml [("output_path", "o.html")] "A" (fun _ => false) (fun p => p)
          (fun _ => none)) ∧
    generate_wireframe (dinsert [("output_path", "o.html")] "type" "LIST_page") "B" "A"
        (fun _ => false) (fun p => p) (fun _ => none) =
      generate_wireframe (dinsert [("output_path", "o.html")] "type" "list_page") "B" "A"
        (fun _ => false) (fun p => p) (fun _ => none) ∧
    runBlocks ([[("output_path", "a.html")]] ++
        [("output_path", "o.html"), ("type", "unknown_type")] :: [[("output_path", "c.html")]])
        "B" "A" (fun _ => false) (fun p => p) (fun _ => none) =
      runBlocks [[("output_path", "a.html")]] "B" "A" (fun _ => false) (fun p => p)
          (fun _ => none) ++
        generate_wireframe [("output_path", "o.html"), ("type", "unknown_type")] "B" "A"
            (fun _ => false) (fun p => p) (fun _ => none) ::
          runBlocks [[("output_path", "c.html")]] "B" "A" (fun _ => false) (fun p => p)
            (fun _ => none) := by
  refine ⟨?_, ?_, ?_, ?_⟩
  · have h := (c5_type_dispatch [("output_path", "o.html"), ("type", "unknown_type")] "B" "A"
      (fun _ => false) (fun p => p) (fun _ => none)).2.1 (by decide) (by decide)
    rw [h]
    decide
  · exact (c5_type_dispatch [("output_path", "o.html")] "B" "A"
      (fun _ => false) (fun p => p) (fun _ => none)).1 rfl
  · exact (c5_type_dispatch [("output_path", "o.html")] "B" "A"
      (fun _ => false) (fun p => p) (fun _ => none)).2.2.1 "LIST_page" "list_page" (by decide)
  · exact (c5_type_dispatch [("output_path", "o.html"), ("type", "unknown_type")] "B" "A"
      (fun _ => false) (fun p => p) (fun _ => none)).2.2.2 [[("output_path", "a.html")]]
      [[("output_path", "c.html")]]

/-- Claim C9: the builders consume only `name`, `title`, `notes`,
`image_url` and `variant`; two mappings agreeing on those five fields
produce identical HTML from both page builders, whatever other keys
they carry. -/
theorem c9_builders_ignore_unrecognized_keys (b₁ b₂ : Block) (assetsDir : String)
    (fs : String → Bool) (uri : String → String) (net : String → Option Nat)
    (h : ∀ k ∈ ["name", "title", "notes", "image_url", "variant"], dget b₁ k = dget b₂ k) :
    buildListPageHtml b₁ assetsDir fs uri net = buildListPageHtml b₂ assetsDir fs uri net ∧
    buildDetailPageHtml b₁ assetsDir fs uri net = buildDetailPageHtml b₂ assetsDir fs uri net := by
  have hn := h "name" (by simp)
  have ht := h "title" (by simp)
  have ho := h "notes" (by simp)
  have hi := h "image_url" (by simp)
  have hv := h "variant" (by simp)
  exact ⟨buildListPageHtml_congr _ _ _ _ _ _ hn ht ho hi hv,
    buildDetailPageHtml_congr _ _ _ _ _ _ hn ht ho hi hv⟩

/-- Witness for C9: two concrete blocks agreeing on the five recognized
fields but with different unrecognized keys (and even different
`output_path`s) render identically. -/
theorem c9_witness :
    buildListPageHtml [("output_path", "x"), ("name", "n"), ("zzz", "1")] "A"
        (fun _ => false) (fun p => p) (fun _ => none) =
      buildListPageHtml [("name", "n"), ("qqq", "2"), ("output_path", "y")] "A"
        (fun _ => false) (fun p => p) (fun _ => none) ∧
    buildDetailPageHtml [("output_path", "x"), ("name", "n"), ("zzz", "1")] "A"
        (fun _ => false) (fun p => p) (fun _ => none) =
      buildDetailPageHtml [("name", "n"), ("qqq", "2"), ("output_path", "y")] "A"
        (fun _ => false) (fun p => p) (fun _ => none) :=
  c9_builders_ignore_unrecognized_keys [("output_path", "x"), ("name", "n"), ("zzz", "1")]
    [("name", "n"), ("qqq", "2"), ("output_path", "y")] "A"
    (fun _ => false) (fun p => p) (fun _ => none) (by decide)

/-- Claim C10: for each recognized optional field, an empty-string value
behaves exactly like an absent field: both builders and the dispatcher
produce the same output on a mapping with the field set to `""` as on
the same mapping with the field removed (every access goes through
Python's falsy `or`-defaulting). -/
theorem c10_empty_field_equals_absent (b : Block) (k : String)
    (hk : k ∈ ["name", "title", "notes", "image_url", "variant", "type"])
    (baseDir assetsDir : String) (fs : String → Bool) (uri : String → String)
    (net : String → Option Nat) :
    buildListPageHtml (dinsert b k "") assetsDir fs uri net =
      buildListPageHtml (derase b k) assetsDir fs uri net ∧
    buildDetailPageHtml (dinsert b k "") assetsDir fs uri net =
      buildDetailPageHtml (derase b k) assetsDir fs uri net ∧
    generate_wireframe (dinsert b k "") baseDir assetsDir fs uri net =
      generate_wireframe (derase b k) baseDir assetsDir fs uri net := by
  have hkop : k ≠ "output_path" := by
    simp only [List.mem_cons, List.not_mem_nil, or_false] at hk
    rcases hk with rfl | rfl | rfl | rfl | rfl | rfl <;> decide
  have hg : ∀ k' d, getOrTruthy (dinsert b k "") k' d = getOrTruthy (derase b k) k' d :=
    fun k' d => getOrTruthy_insert_empty_eq_erase b k k' d
  have e1 : buildListPageHtml (dinsert b k "") assetsDir fs uri net =
      buildListPageHtml (derase b k) assetsDir fs uri net := by
    unfold buildListPageHtml list_thumb_src
    simp only [hg]
  have e2 : buildDetailPageHtml (dinsert b k "") assetsDir fs uri net =
      buildDetailPageHtml (derase b k) assetsDir fs uri net := by
    unfold buildDetailPageHtml detail_hero_src
    simp only [hg]
  have e4 : dget (dinsert b k "") "output_path" = dget (derase b k) "output_path" := by
    rw [dget_dinsert_ne b k "" "output_path" (Ne.symm hkop),
      dget_derase_ne b k "output_path" (Ne.symm hkop)]
  refine ⟨e1, e2, ?_⟩
  simp only [generate_wireframe, hg, e1, e2, e4]

/-- Witness for C10: `variant: ""` renders and dispatches exactly like a
block with no `variant` key at all. -/
theorem c10_witness :
    buildListPageHtml (dinsert [("output_path", "x"), ("variant", "web")] "variant" "") "A"
        (fun _ => false) (fun p => p) (fun _ => none) =
      buildListPageHtml (derase [("output_path", "x"), ("variant", "web")] "variant") "A"
        (fun _ => false) (fun p => p) (fun _ => none) ∧
    buildDetailPageHtml (dinsert [("output_path", "x"), ("variant", "web")] "variant" "") "A"
        (fun _ => false) (fun p => p) (fun _ => none) =
      buildDetailPageHtml (derase [("output_path", "x"), ("variant", "web")] "variant") "A"
        (fun _ => false) (fun p => p) (fun _ => none) ∧
    generate_wireframe (dinsert [("output_path", "x"), ("variant", "web")] "variant" "") "B" "A"
        (fun _ => false) (fun p => p) (fun _ => none) =
      generate_wireframe (derase [("output_path", "x"), ("variant", "web")] "variant") "B" "A"
        (fun _ => false) (fun p => p) (fun _ => none) :=
  c10_empty_field_equals_absent [("output_path", "x"), ("variant", "web")] "variant"
    (by decide) "B" "A" (fun _ => false) (fun p => p) (fun _ => none)

/-- Claim C3: the literal string held in a block's `notes` field appears
verbatim (unescaped) inside the footer element of both generated pages:
each document splits as `x ++ (footer-open ++ notes ++ footer-close) ++ y`. -/
theorem c3_notes_verbatim_in_footer (b : Block) (s : String)
    (assetsDir : String) (fs : String → Bool) (uri : String → String)
    (net : String → Option Nat) (h : dget b "notes" = some s) :
    (∃ x y, buildListPageHtml b assetsDir fs uri net =
      x ++ (wfFooterOpen ++ s ++ wfFooterClose) ++ y) ∧
    (∃ x y, buildDetailPageHtml b assetsDir fs uri net =
      x ++ (wfFooterOpen ++ s ++ wfFooterClose) ++ y) := by
  have hnotes : getOrTruthy b "notes" "" = s := by
    unfold getOrTruthy
    rw [h]
    by_cases hs : s = "" <;> simp [hs]
  constructor
  · refine ⟨listSeg0 ++ getOrTruthy b "title" "列表页线框" ++ listSeg1 ++ listCss ++ listSeg2 ++
      pageClass (pyToLower (getOrTruthy b "variant" "mobile")) ++ listSeg3 ++
      getOrTruthy b "name" "list_page" ++ listSeg4 ++ getOrTruthy b "title" "列表页线框" ++
      listSeg5 ++ list_thumb_src b assetsDir fs uri net ++ listSeg6 ++
      list_thumb_src b assetsDir fs uri net ++ listSeg7 ++
      list_thumb_src b assetsDir fs uri net ++ listSeg8 ++
      list_thumb_src b assetsDir fs uri net ++ listSeg9 ++
      list_thumb_src b assetsDir fs uri net ++ listSeg10 ++
      list_thumb_src b assetsDir fs uri net ++ listSeg11, listSeg12, ?_⟩
    unfold buildListPageHtml listPageDoc
    rw [hnotes]
    simp only [String.append_assoc]
  · refine ⟨detailSeg0 ++ getOrTruthy b "title" "详情页线框" ++ detailSeg1 ++ detailCss ++
      detailSeg2 ++ pageClass (pyToLower (getOrTruthy b "variant" "mobile")) ++ detailSeg3 ++
      getOrTruthy b "name" "detail_page" ++ detailSeg4 ++ getOrTruthy b "title" "详情页线框" ++
      detailSeg5 ++
      (if detail_hero_src b assetsDir fs uri net ≠ "" then
        detailHeroDiv (detail_hero_src b assetsDir fs uri net) else "") ++
      detailMainOpen ++ detailPara1 ++ detailParaSep1 ++ detailPara2 ++ detailParaSep2 ++
      detailPara3 ++ detailMainClose, detailSeg7, ?_⟩
    unfold buildDetailPageHtml detailPageDoc
    rw [hnotes]
    simp only [String.append_assoc]

/-- Witness for C3 at a concrete block: the supplied notes text sits
between the footer-open and footer-close literals in both documents. -/
theorem c3_witness :
    dget [("output_path", "x"), ("notes", "NOTE-TEXT")] "notes" = some "NOTE-TEXT" ∧
    (∃ x y, buildListPageHtml [("output_path", "x"), ("notes", "NOTE-TEXT")] "A"
        (fun _ => false) (fun p => p) (fun _ => none) =
      x ++ (wfFooterOpen ++ "NOTE-TEXT" ++ wfFooterClose) ++ y) :=
  ⟨by decide,
   (c3_notes_verbatim_in_footer [("output_path", "x"), ("notes", "NOTE-TEXT")] "NOTE-TEXT"
     "A" (fun _ => false) (fun p => p) (fun _ => none) (by decide)).1⟩

/-- Claim C4: for a detail-page block whose hero source resolves to the
empty string (empty `image_url`, no placeholder asset file existing),
the hero-image element is entirely omitted — the document equals the
template with *nothing* between the header segment and the main
segment, and it differs from the template with a hero element inserted
for every conceivable `src`, including the blank one — while the three
fixed example body paragraphs are still present. -/
theorem c4_hero_omitted_not_blanked (b : Block) (assetsDir : String)
    (fs : String → Bool) (uri : String → String) (net : String → Option Nat)
    (himg : getOrTruthy b "image_url" "" = "")
    (h1 : fs (assetsDir ++ "/" ++ verticalPlaceholderName) = false)
    (h2 : fs (assetsDir ++ "/" ++ landscapePlaceholderName) = false)
    (h3 : fs (assetsDir ++ "/" ++ listThumbPlaceholderName) = false) :
    detail_hero_src b assetsDir fs uri net = "" ∧
    buildDetailPageHtml b assetsDir fs uri net =
      detailSeg0 ++ getOrTruthy b "title" "详情页线框" ++ detailSeg1 ++ detailCss ++
        detailSeg2 ++ pageClass (pyToLower (getOrTruthy b "variant" "mobile")) ++
        detailSeg3 ++ getOrTruthy b "name" "detail_page" ++ detailSeg4 ++
        getOrTruthy b "title" "详情页线框" ++ detailSeg5 ++ detailMainOpen ++
        detailPara1 ++ detailParaSep1 ++ detailPara2 ++ detailParaSep2 ++ detailPara3 ++
        detailMainClose ++ wfFooterOpen ++ getOrTruthy b "notes" "" ++ wfFooterClose ++
        detailSeg7 ∧
    (∀ src : String, buildDetailPageHtml b assetsDir fs uri net ≠
      detailSeg0 ++ getOrTruthy b "title" "详情页线框" ++ detailSeg1 ++ detailCss ++
        detailSeg2 ++ pageClass (pyToLower (getOrTruthy b "variant" "mobile")) ++
        detailSeg3 ++ getOrTruthy b "name" "detail_page" ++ detailSeg4 ++
        getOrTruthy b "title" "详情页线框" ++ detailSeg5 ++ detailHeroDiv src ++
        detailMainOpen ++ detailPara1 ++ detailParaSep1 ++ detailPara2 ++ detailParaSep2 ++
        detailPara3 ++ detailMainClose ++ wfFooterOpen ++ getOrTruthy b "notes" "" ++
        wfFooterClose ++ detailSeg7) ∧
    (∃ x y, buildDetailPageHtml b assetsDir fs uri net = x ++ detailPara1 ++ y) ∧
    (∃ x y, buildDetailPageHtml b assetsDir fs uri net = x ++ detailPara2 ++ y) ∧
    (∃ x y, buildDetailPageHtml b assetsDir fs uri net = x ++ detailPara3 ++ y) := by
  have hz : detail_hero_src b assetsDir fs uri net = "" := by
    unfold detail_hero_src
    rw [himg]
    simp only [resolveImageSrc, ne_eq, not_true_eq_false, if_false, ite_false,
      reduceIte]
    simp [detail_default_hero_src, assetUri, h1, h2, h3, firstTruthy, List.find?]
  have hmain : buildDetailPageHtml b assetsDir fs uri net =
      detailSeg0 ++ getOrTruthy b "title" "详情页线框" ++ detailSeg1 ++ detailCss ++
        detailSeg2 ++ pageClass (pyToLower (getOrTruthy b "variant" "mobile")) ++
        detailSeg3 ++ getOrTruthy b "name" "detail_page" ++ detailSeg4 ++
        getOrTruthy b "title" "详情页线框" ++ detailSeg5 ++ detailMainOpen ++
        detailPara1 ++ detailParaSep1 ++ detailPara2 ++ detailParaSep2 ++ detailPara3 ++
        detailMainClose ++ wfFooterOpen ++ getOrTruthy b "notes" "" ++ wfFooterClose ++
        detailSeg7 := by
    unfold buildDetailPageHtml detailPageDoc
    rw [hz]
    rw [if_neg (fun hh => hh rfl)]
    rw [String.append_empty]
  refine ⟨hz, hmain, ?_, ?_, ?_, ?_⟩
  · intro src heq
    rw [hmain] at heq
    have hlen := congrArg String.length heq
    simp only [String.length_append] at hlen
    have hd : (detailHeroDiv src).length =
        detailHeroOpen.length + src.length + detailHeroClose.length := by
      simp [detailHeroDiv, String.length_append]
    have hpos : 0 < detailHeroOpen.length := by decide
    omega
  · refine ⟨detailSeg0 ++ getOrTruthy b "title" "详情页线框" ++ detailSeg1 ++ detailCss ++
      detailSeg2 ++ pageClass (pyToLower (getOrTruthy b "variant" "mobile")) ++
      detailSeg3 ++ getOrTruthy b "name" "detail_page" ++ detailSeg4 ++
      getOrTruthy b "title" "详情页线框" ++ detailSeg5 ++ detailMainOpen,
      detailParaSep1 ++ detailPara2 ++ detailParaSep2 ++ detailPara3 ++
      detailMainClose ++ wfFooterOpen ++ getOrTruthy b "notes" "" ++ wfFooterClose ++
      detailSeg7, ?_⟩
    rw [hmain]
    simp only [String.append_assoc]
  · refine ⟨detailSeg0 ++ getOrTruthy b "title" "详情页线框" ++ detailSeg1 ++ detailCss ++
      detailSeg2 ++ pageClass (pyToLower (getOrTruthy b "variant" "mobile")) ++
      detailSeg3 ++ getOrTruthy b "name" "detail_page" ++ detailSeg4 ++
      getOrTruthy b "title" "详情页线框" ++ detailSeg5 ++ detailMainOpen ++
      detailPara1 ++ detailParaSep1,
      detailParaSep2 ++ detailPara3 ++ detailMainClose ++ wfFooterOpen ++
      getOrTruthy b "notes" "" ++ wfFooterClose ++ detailSeg7, ?_⟩
    rw [hmain]
    simp only [String.append_assoc]
  · refine ⟨detailSeg0 ++ getOrTruthy b "title" "详情页线框" ++ detailSeg1 ++ detailCss ++
      detailSeg2 ++ pageClass (pyToLower (getOrTruthy b "variant" "mobile")) ++
      detailSeg3 ++ getOrTruthy b "name" "detail_page" ++ detailSeg4 ++
      getOrTruthy b "title" "详情页线框" ++ detailSeg5 ++ detailMainOpen ++
      detailPara1 ++ detailParaSep1 ++ detailPara2 ++ detailParaSep2,
      detailMainClose ++ wfFooterOpen ++ getOrTruthy b "notes" "" ++ wfFooterClose ++
      detailSeg7, ?_⟩
    rw [hmain]
    simp only [String.append_assoc]

/-- Witness for C4 at a concrete block with empty `image_url` and a
filesystem with no assets. -/
theorem c4_witness :
    detail_hero_src [("output_path", "x"), ("image_url", "")] "A"
      (fun _ => false) (fun p => p) (fun _ => none) = "" ∧
    (∃ x y, buildDetailPageHtml [("output_path", "x"), ("image_url", "")] "A"
      (fun _ => false) (fun p => p) (fun _ => none) = x ++ detailPara1 ++ y) := by
  have h := c4_hero_omitted_not_blanked [("output_path", "x"), ("image_url", "")] "A"
    (fun _ => false) (fun p => p) (fun _ => none) (by decide) rfl rfl rfl
  exact ⟨h.1, h.2.2.2.1⟩
